import Mathlib

/-!
Verification of the CANDLE checkpoint/restart utilities
(`common/ckpt_keras_utils.py`).

The development shallowly embeds the checkpoint subsystem:

* Python truthiness and the configuration dictionary (`param`, `enabled`,
  `disabled`);
* the CRC-32 checksum utility (`checksum_file`), with bytes as `Nat` values
  below 256 and the 32-bit accumulator as a `Nat`;
* the save policy (`save_check`) of `CandleCheckpointCallback`, with Python
  floats modelled as rationals and `math.inf` as `Option.none`;
* the snapshot writer and its directory rotation (`on_epoch_end`), with the
  on-disk state of the `save/ckpt-work` / `save/ckpt-good` / `save/ckpt-old`
  directories made explicit;
* the restart loader (`restart`, `restart_json`).

Wall-clock time is threaded in as an explicit `Nat` parameter; logging is
pure observation and is omitted.
-/

namespace CkptKerasUtils

/-! ## Python values and the configuration dictionary -/

/-- A Python value as far as the checkpoint utilities inspect one:
booleans, strings, integers, floats (as rationals) and `None`. -/
inductive PyValue where
  | vBool : Bool → PyValue
  | vStr : String → PyValue
  | vInt : Int → PyValue
  | vRat : ℚ → PyValue
  | vNone : PyValue
deriving Repr, DecidableEq

/-- Python truthiness: `False`, `""`, `0`, `0.0` and `None` are falsy,
everything else is truthy. -/
def PyValue.truthy : PyValue → Bool
  | .vBool b => b
  | .vStr s => !s.isEmpty
  | .vInt n => n != 0
  | .vRat q => q != 0
  | .vNone => false

/-- The `gParameters` configuration dictionary, as an association list. -/
abbrev Config := List (String × PyValue)

/-- `param(gParameters, key, dflt)`: the value at `key` if present,
else the default. -/
def param (gParameters : Config) (key : String) (dflt : PyValue) : PyValue :=
  match gParameters.lookup key with
  | some v => v
  | none => dflt

/-- `enabled(gParameters, key)`: `key in gParameters and gParameters[key]`. -/
def enabled (gParameters : Config) (key : String) : Bool :=
  match gParameters.lookup key with
  | some v => v.truthy
  | none => false

/-- `disabled(gParameters, key)`: `key in gParameters and not gParameters[key]`. -/
def disabled (gParameters : Config) (key : String) : Bool :=
  match gParameters.lookup key with
  | some v => !v.truthy
  | none => false

/-! ## CRC-32 (`zlib.crc32`) and `checksum_file` -/

/-- The bit-reversed CRC-32 polynomial used by zlib. -/
def CRC_POLY : Nat := 0xEDB88320

/-- Mask of 32 one bits. -/
def M32 : Nat := 0xFFFFFFFF

/-- One bit round of the CRC-32 computation: shift right, and XOR with
the polynomial when the low bit was set. -/
def crcRound (r : Nat) : Nat :=
  if r % 2 = 1 then (r / 2) ^^^ CRC_POLY else r / 2

/-- One byte of CRC-32: XOR the byte into the low bits and run 8 rounds. -/
def crcByte (crc b : Nat) : Nat :=
  crcRound (crcRound (crcRound (crcRound
    (crcRound (crcRound (crcRound (crcRound (crc ^^^ b))))))))

/-- `zlib.crc32(data, value)`: complement, fold the bytes, complement. -/
def crc32 (data : List Nat) (value : Nat) : Nat :=
  (data.foldl crcByte (value ^^^ M32)) ^^^ M32

/-- The 10 MiB chunk size used by `checksum_file`. -/
def chunk_size : Nat := 10 * 1024 * 1024

/-- The successive chunks delivered by `fp.read(chunk_size)` on a file whose
contents are `data`, with explicit fuel for termination (one chunk is
consumed per step, so `data.length` fuel always suffices). -/
def readChunksFuel : Nat → List Nat → List (List Nat)
  | 0, _ => []
  | _, [] => []
  | fuel + 1, data => data.take chunk_size :: readChunksFuel fuel (data.drop chunk_size)

/-- All chunks read from a file whose contents are `data`. -/
def readChunks (data : List Nat) : List (List Nat) :=
  readChunksFuel data.length data

/-- The accumulator loop of `checksum_file`: `checksum = 0`, then
`checksum = zlib.crc32(chunk, checksum)` for every chunk. -/
def checksum_chunks (chunks : List (List Nat)) : Nat :=
  chunks.foldl (fun checksum chunk => crc32 chunk checksum) 0

/-- `checksum_file(logger, filename)`: read the file in chunks, fold each
chunk into the running CRC-32 accumulator seeded at 0, and return the final
accumulator rendered as a string. -/
def checksum_file (data : List Nat) : String :=
  toString (checksum_chunks (readChunks data))

/-! ## Errors raised by the checkpoint subsystem -/

/-- The ways the checkpoint subsystem fails (each a raised Python exception):
a tracked metric missing from the epoch logs, a missing descriptor in strict
mode, a file the filesystem cannot deliver, and a checksum mismatch on
restart. -/
inductive CkptError where
  | configurationError (save_best_stat : String) (metrics : List String)
  | missingDescriptorError (directory : String)
  | ioError (path : String)
  | corruptionError (directory : String)
deriving Repr, DecidableEq

/-! ## The callback state and the save policy -/

/-- The instance fields of `CandleCheckpointCallback` set by `scan_params`.
Metric values are rationals; `best_stat_last = none` models `math.inf`
(the initialisation used when no previous best is supplied). -/
structure SaveState where
  skip_epochs : Nat
  save_best_only : Bool
  save_best_stat : String
  best_stat_last : Option ℚ
  save_weights_only : Bool
  checksum_enabled : Bool
  metadata : Option String
  timestamp_last : Option Nat
  clean : Bool
deriving Repr, DecidableEq

/-- Decode a configuration value to a rational, as Python arithmetic would
use it (ints and floats compare as numbers; anything else is not a metric). -/
def PyValue.toRat : PyValue → Option ℚ
  | .vInt n => some (n : ℚ)
  | .vRat q => some q
  | _ => none

/-- Decode a configuration value to a natural number (epoch counts). -/
def PyValue.toNatVal : PyValue → Option Nat
  | .vInt n => some n.toNat
  | _ => none

/-- Decode a configuration value to a string. -/
def PyValue.toStr : PyValue → Option String
  | .vStr s => some s
  | _ => none

/-- `scan_params`: translate `gParameters` into instance fields, with the
defaults of the source (`skip_epochs=0`, `save_best_only=False`,
`save_best_stat="loss"`, `best_stat_last=None`, mapped to `math.inf`,
`save_weights_only=True`, `checksum=True`, `metadata=None`,
`timestamp_last=None`, `clean=False`). -/
def scan_params (gParameters : Config) : SaveState :=
  { skip_epochs := ((param gParameters "skip_epochs" (.vInt 0)).toNatVal).getD 0
    save_best_only := (param gParameters "save_best_only" (.vBool false)).truthy
    save_best_stat :=
      ((param gParameters "save_best_stat" (.vStr "loss")).toStr).getD "loss"
    best_stat_last := (param gParameters "best_stat_last" .vNone).toRat
    save_weights_only := (param gParameters "save_weights_only" (.vBool true)).truthy
    checksum_enabled := (param gParameters "checksum" (.vBool true)).truthy
    metadata := (param gParameters "metadata" .vNone).toStr
    timestamp_last := (param gParameters "timestamp_last" .vNone).toNatVal
    clean := (param gParameters "clean" (.vBool false)).truthy }

/-- The per-epoch metric dictionary `logs`. -/
abbrev Logs := List (String × ℚ)

/-- `v < self.best_stat_last`, where the stored best may be `math.inf`. -/
def ltBest (v : ℚ) : Option ℚ → Bool
  | none => true
  | some w => decide (v < w)

/-- `save_check(self, logs, epoch)`: decide whether to save this epoch.
Returns the boolean decision together with the updated callback state
(`best_stat_last` is overwritten on a strict improvement); raises when
`save_best_only` is set and the tracked stat is absent from `logs`. -/
def save_check (s : SaveState) (logs : Logs) (epoch : Nat) :
    Except CkptError (Bool × SaveState) :=
  if epoch < s.skip_epochs then
    .ok (false, s)
  else if !s.save_best_only then
    .ok (true, s)
  else
    match logs.lookup s.save_best_stat with
    | none => .error (.configurationError s.save_best_stat (logs.map Prod.fst))
    | some v =>
      if ltBest v s.best_stat_last then
        .ok (true, { s with best_stat_last := some v })
      else
        .ok (false, s)

/-! ## The descriptor and the snapshot writer -/

/-- The checkpoint descriptor persisted as `ckpt-info.json` by `write_json`.
`time_elapsed = none` models the `"__FIRST__"` sentinel. -/
structure Descriptor where
  epoch : Nat
  save_best_only : Bool
  save_best_stat : String
  best_stat_last : Option ℚ
  model_file : String
  checksum : String
  timestamp : Nat
  time_elapsed : Option Nat
  metadata : Option String
deriving Repr, DecidableEq

/-- The contents of one checkpoint directory: the serialized weights
(`model.h5`, when present) and the descriptor (`ckpt-info.json`, when
present). -/
structure Dir where
  model_file : Option (List Nat)
  info : Option Descriptor
deriving Repr, DecidableEq

/-- A directory freshly created by `os.makedirs`. -/
def Dir.emptyDir : Dir := ⟨none, none⟩

/-- `self.checksum(dir_work)`: the checksum string stored in the descriptor,
either the CRC-32 of the weights or the disabled sentinel. -/
def checksum_dispatch (s : SaveState) (weights : List Nat) : String :=
  if s.checksum_enabled then checksum_file weights else "__DISABLED__"

/-- `write_json(self, jsonfile, epoch)`: build the descriptor dictionary and
update `timestamp_last`; `now` is the wall clock passed in explicitly. -/
def write_json (s : SaveState) (cksum : String) (epoch now : Nat) :
    Descriptor × SaveState :=
  ({ epoch := epoch
     save_best_only := s.save_best_only
     save_best_stat := s.save_best_stat
     best_stat_last := s.best_stat_last
     model_file := "model.h5"
     checksum := cksum
     timestamp := now
     time_elapsed := s.timestamp_last.map (fun t => now - t)
     metadata := s.metadata },
   { s with timestamp_last := some now })

/-- `write_model(self, dir_work, epoch)`: serialize the weights into
`dir_work/model.h5`, compute the checksum, and write the descriptor.
Returns the fully populated work directory and the updated state. -/
def write_model (s : SaveState) (weights : List Nat) (epoch now : Nat) :
    Dir × SaveState :=
  let cksum := checksum_dispatch s weights
  let ds := write_json s cksum epoch now
  (⟨some weights, some ds.1⟩, ds.2)

/-! ## The on-disk directory triple and the rotation of `on_epoch_end` -/

/-- The on-disk state of the three snapshot directory slots
`save/ckpt-work`, `save/ckpt-good` and `save/ckpt-old`
(`none` means the directory does not exist). -/
structure SaveFS where
  work : Option Dir
  good : Option Dir
  old : Option Dir
deriving Repr, DecidableEq

/-- `on_epoch_end(self, epoch, logs)`: create `work` if absent, run
`save_check`, and on a positive decision write the snapshot into `work` and
rotate: remove a pre-existing `old`, rename `good` to `old` when `good`
exists (otherwise no cleanup is owed), rename `work` to `good`, and remove
`old` again when the `clean` policy asked for it.  `weights` are the bytes
`self.model.save` serializes and `now` is the wall clock. -/
def on_epoch_end (s : SaveState) (logs : Logs) (epoch : Nat)
    (weights : List Nat) (now : Nat) (fs : SaveFS) :
    Except CkptError (SaveState × SaveFS) :=
  let fs1 := if fs.work = none then { fs with work := some Dir.emptyDir } else fs
  match save_check s logs epoch with
  | .error e => .error e
  | .ok (false, s1) => .ok (s1, fs1)
  | .ok (true, s1) =>
    let ws := write_model s1 weights epoch now
    let fs2 := { fs1 with work := some ws.1 }
    let fs3 := { fs2 with old := none }
    let doClean := ws.2.clean && fs3.good.isSome
    let fs4 :=
      if fs3.good.isSome then { fs3 with old := fs3.good, good := none } else fs3
    let fs5 := { fs4 with good := fs4.work, work := none }
    let fs6 := if doClean then { fs5 with old := none } else fs5
    .ok (ws.2, fs6)

/-- The successive on-disk states produced by the save path of
`on_epoch_end` once `save_check` has accepted, writing with state `s`:
after creating `work`, after populating `work`, after deleting a
pre-existing `old`, after the `good` to `old` rename, after the `work` to
`good` rename, and after the final cleanup.  A crash between two steps
leaves the filesystem in exactly one of these states. -/
def rotationTrace (s : SaveState) (weights : List Nat) (epoch now : Nat)
    (fs : SaveFS) : List SaveFS :=
  let fs1 := if fs.work = none then { fs with work := some Dir.emptyDir } else fs
  let ws := write_model s weights epoch now
  let fs2 := { fs1 with work := some ws.1 }
  let fs3 := { fs2 with old := none }
  let doClean := ws.2.clean && fs3.good.isSome
  let fs4 :=
    if fs3.good.isSome then { fs3 with old := fs3.good, good := none } else fs3
  let fs5 := { fs4 with good := fs4.work, work := none }
  let fs6 := if doClean then { fs5 with old := none } else fs5
  [fs1, fs2, fs3, fs4, fs5, fs6]

/-! ## The restart loader -/

/-- The weights currently held by a model object; `model.load_weights`
replaces them. -/
abbrev Model := List Nat

/-- `restart_json(gParameters, logger, directory)`: read the descriptor of
a snapshot directory and validate the checksum.  When `ckpt-info.json` is
absent the source raises unless `require_json` is disabled, but then still
opens the absent file unconditionally, so the relaxed path fails with a
file I/O error instead of proceeding.  When checksumming is not disabled, a
recomputed checksum that differs from the descriptor's is a corruption
error (the source's message formatting is itself faulty, but control flow
raises at exactly this point). -/
def restart_json (gParameters : Config) (dirGood : Dir) (directory : String) :
    Except CkptError Descriptor :=
  match dirGood.info with
  | none =>
    if !disabled gParameters "require_json" then
      .error (.missingDescriptorError directory)
    else
      .error (.ioError (directory ++ "/ckpt-info.json"))
  | some J =>
    if !disabled gParameters "checksum" then
      match dirGood.model_file with
      | none => .error (.ioError (directory ++ "/model.h5"))
      | some bytes =>
        if checksum_file bytes ≠ J.checksum then
          .error (.corruptionError directory)
        else
          .ok J
    else
      .ok J

/-- `restart(gParameters, model)`: return `none` when restart is disabled
or no `good/model.h5` exists; otherwise validate through `restart_json`,
load the weights into the model in place, and return the descriptor. -/
def restart (gParameters : Config) (good : Option Dir) (model : Model) :
    Except CkptError (Option Descriptor × Model) :=
  if disabled gParameters "restart" then
    .ok (none, model)
  else
    match good with
    | none => .ok (none, model)
    | some d =>
      match d.model_file with
      | none => .ok (none, model)
      | some bytes =>
        match restart_json gParameters d "save/ckpt-good" with
        | .error e => .error e
        | .ok J => .ok (some J, bytes)

/-! ## Repeated save decisions (for the best-only policy over a run) -/

/-- Run `save_check` over a sequence of values of the tracked metric, one
epoch at a time (every epoch at the `skip_epochs` threshold, so warm-up
suppression never interferes), collecting the decisions. -/
def run_save_checks (s : SaveState) : List ℚ → Except CkptError (List Bool × SaveState)
  | [] => .ok ([], s)
  | v :: vs =>
    match save_check s [(s.save_best_stat, v)] s.skip_epochs with
    | .error e => .error e
    | .ok (b, s1) =>
      match run_save_checks s1 vs with
      | .error e => .error e
      | .ok (bs, s2) => .ok (b :: bs, s2)

/-- The values the policy accepted: those whose decision was `true`. -/
def acceptedVals (vs : List ℚ) (bs : List Bool) : List ℚ :=
  ((vs.zip bs).filter (fun p => p.2)).map Prod.fst

/-- `b` is the minimum of the list `l` (with `none` for an empty list). -/
def isMinOf (b : Option ℚ) (l : List ℚ) : Prop :=
  match b with
  | none => l = []
  | some m => m ∈ l ∧ ∀ v ∈ l, m ≤ v

deriving instance DecidableEq for Except

/-! ## Concrete instances used by witnesses and counterexamples -/

/-- A callback state that saves unconditionally, with checksumming on. -/
def sWriterC : SaveState :=
  { skip_epochs := 0, save_best_only := false, save_best_stat := "loss",
    best_stat_last := none, save_weights_only := true, checksum_enabled := true,
    metadata := none, timestamp_last := none, clean := false }

/-- The same callback state with the best-only policy switched on. -/
def sBestC : SaveState := { sWriterC with save_best_only := true }

/-- A descriptor for a previously written snapshot of the single byte 0. -/
def prevDescC : Descriptor :=
  { epoch := 2, save_best_only := false, save_best_stat := "loss",
    best_stat_last := none, model_file := "model.h5",
    checksum := checksum_file [0], timestamp := 10, time_elapsed := none,
    metadata := none }

/-- The previous `good` snapshot directory holding that snapshot. -/
def prevGoodC : Dir := ⟨some [0], some prevDescC⟩

/-- A filesystem whose `good` slot holds the previous snapshot and whose
`work` and `old` slots are empty. -/
def fsPrevC : SaveFS := ⟨none, some prevGoodC, none⟩

/-- A descriptor whose recorded checksum does not match the artifact. -/
def badDescC : Descriptor := { prevDescC with checksum := "0" }

/-- A descriptor whose recorded checksum matches the artifact made of the
single byte 1. -/
def goodDescC : Descriptor := { prevDescC with checksum := checksum_file [1] }

/-! ## CRC-32 streaming lemmas -/

/-- Feeding a concatenation through `zlib.crc32` equals feeding the second
part with the first part's result as the starting value. -/
theorem crc32_append (a b : List Nat) (value : Nat) :
    crc32 (a ++ b) value = crc32 b (crc32 a value) := by
  simp only [crc32, List.foldl_append, Nat.xor_cancel_right]

/-- Folding chunks onto an accumulator that is already the CRC-32 of some
prefix extends the prefix by the joined chunks. -/
theorem checksum_chunks_fold (chunks : List (List Nat)) :
    ∀ data : List Nat,
      chunks.foldl (fun checksum chunk => crc32 chunk checksum) (crc32 data 0) =
        crc32 (data ++ chunks.flatten) 0 := by
  induction chunks with
  | nil => intro data; simp
  | cons c cs ih =>
    intro data
    simp only [List.foldl_cons, List.flatten_cons]
    rw [← crc32_append, ih (data ++ c), List.append_assoc]

/-- The chunked accumulator loop of `checksum_file` computes the CRC-32 of
the joined chunks. -/
theorem checksum_chunks_eq_crc32 (chunks : List (List Nat)) :
    checksum_chunks chunks = crc32 chunks.flatten 0 := by
  have h0 : crc32 [] 0 = 0 := by decide
  have h := checksum_chunks_fold chunks []
  rw [h0] at h
  simpa [checksum_chunks] using h

/-- The chunk size is positive, so every read makes progress. -/
theorem chunk_size_pos : 0 < chunk_size := by decide

/-- With enough fuel, joining the chunks read from a file recovers its
contents. -/
theorem readChunksFuel_join :
    ∀ (fuel : Nat) (data : List Nat), data.length ≤ fuel →
      (readChunksFuel fuel data).flatten = data := by
  intro fuel
  induction fuel with
  | zero =>
    intro data h
    have : data = [] := List.length_eq_zero.mp (Nat.le_zero.mp h)
    subst this
    rfl
  | succ n ih =>
    intro data h
    match data with
    | [] => rfl
    | d :: ds =>
      simp only [readChunksFuel, List.flatten_cons]
      rw [ih ((d :: ds).drop chunk_size) ?_, List.take_append_drop]
      have hp := chunk_size_pos
      simp only [List.length_drop, List.length_cons]
      simp only [List.length_cons] at h
      omega

/-- Joining the chunks read from a file recovers its contents. -/
theorem readChunks_join (data : List Nat) : (readChunks data).flatten = data :=
  readChunksFuel_join data.length data le_rfl

/-- Claim C7: folding any partition of a byte sequence chunk by chunk
through the CRC-32 accumulator seeded at 0 yields the same value as
processing the whole sequence in one chunk, so `checksum_file` is
deterministic on file contents and independent of chunk boundaries, and its
result is that accumulator rendered as a string. -/
theorem checksum_chunking_independence :
    (∀ chunks : List (List Nat), checksum_chunks chunks = crc32 chunks.flatten 0) ∧
    (∀ data : List Nat, checksum_file data = toString (crc32 data 0)) := by
  refine ⟨checksum_chunks_eq_crc32, fun data => ?_⟩
  rw [checksum_file, checksum_chunks_eq_crc32, readChunks_join]

/-- Claim C8: for every epoch below `skip_epochs`, `save_check` returns
`false` and leaves the callback state unchanged, regardless of the logs
dictionary and of the `save_best_only` setting. -/
theorem save_check_skip_epochs (s : SaveState) (logs : Logs) (epoch : Nat)
    (h : epoch < s.skip_epochs) :
    save_check s logs epoch = .ok (false, s) := by
  simp [save_check, h]

/-- Witness for claim C8 at a concrete state and epoch. -/
theorem save_check_skip_epochs_witness :
    save_check { sWriterC with skip_epochs := 5 } [("loss", (1 : ℚ))] 2 =
      .ok (false, { sWriterC with skip_epochs := 5 }) :=
  save_check_skip_epochs { sWriterC with skip_epochs := 5 }
    [("loss", (1 : ℚ))] 2 (by decide)

/-- Claim C4: when best-only saving is requested and the epoch has passed
the warm-up threshold, a logs dictionary lacking the tracked stat makes
`save_check` raise a configuration error naming the missing stat and the
available metrics, rather than silently skipping the save. -/
theorem save_check_missing_stat (s : SaveState) (logs : Logs) (epoch : Nat)
    (hbo : s.save_best_only = true) (hep : s.skip_epochs ≤ epoch)
    (habs : logs.lookup s.save_best_stat = none) :
    save_check s logs epoch =
      .error (.configurationError s.save_best_stat (logs.map Prod.fst)) := by
  simp [save_check, hbo, habs, Nat.not_lt.mpr hep]

/-- Witness for claim C4: tracking "loss" while only "acc" was logged. -/
theorem save_check_missing_stat_witness :
    save_check sBestC [("acc", (1 : ℚ))] 0 =
      .error (.configurationError "loss" ["acc"]) :=
  save_check_missing_stat sBestC [("acc", (1 : ℚ))] 0 rfl (Nat.le_refl 0)
    (by decide)

/-- Claim C9: `enabled` holds exactly on present truthy values, `disabled`
holds exactly on present falsy values, and an absent key is neither enabled
nor disabled (the deliberate absent/true/false tri-state). -/
theorem enabled_disabled_tristate (g : Config) (k : String) :
    (enabled g k = true ↔ ∃ v, g.lookup k = some v ∧ v.truthy = true) ∧
    (disabled g k = true ↔ ∃ v, g.lookup k = some v ∧ v.truthy = false) ∧
    (g.lookup k = none → enabled g k = false ∧ disabled g k = false) := by
  cases hg : g.lookup k with
  | none => simp [enabled, disabled, hg]
  | some v => simp [enabled, disabled, hg]

/-- Witness for claim C9 on a configuration that sets `restart` to `False`. -/
theorem enabled_disabled_tristate_witness :
    (enabled [("restart", PyValue.vBool false)] "restart" = true ↔
      ∃ v, [("restart", PyValue.vBool false)].lookup "restart" = some v ∧
        v.truthy = true) ∧
    (disabled [("restart", PyValue.vBool false)] "restart" = true ↔
      ∃ v, [("restart", PyValue.vBool false)].lookup "restart" = some v ∧
        v.truthy = false) ∧
    ([("restart", PyValue.vBool false)].lookup "restart" = none →
      enabled [("restart", PyValue.vBool false)] "restart" = false ∧
        disabled [("restart", PyValue.vBool false)] "restart" = false) :=
  enabled_disabled_tristate [("restart", PyValue.vBool false)] "restart"

/-- Evaluation of `save_check` past warm-up with the best-only policy on
and the tracked stat present: the decision is the strict comparison against
the stored best, and the best is overwritten exactly on improvement. -/
theorem save_check_eval (s : SaveState) (logs : Logs) (epoch : Nat) (v : ℚ)
    (hbo : s.save_best_only = true) (hep : s.skip_epochs ≤ epoch)
    (hl : logs.lookup s.save_best_stat = some v) :
    save_check s logs epoch =
      .ok (ltBest v s.best_stat_last,
        if ltBest v s.best_stat_last then { s with best_stat_last := some v }
        else s) := by
  simp only [save_check, hbo, hl, Nat.not_lt.mpr hep, if_false, Bool.not_true,
    Bool.false_eq_true, if_neg (Nat.not_lt.mpr hep)]
  split <;> simp_all

/-- Over a run of epochs, `run_save_checks` succeeds and the stored best is
the minimum of the previously accepted values together with the values it
started out minimising. -/
theorem run_save_checks_min (vs : List ℚ) :
    ∀ (s : SaveState) (A : List ℚ), s.save_best_only = true →
      isMinOf s.best_stat_last A →
      ∃ bs s1, run_save_checks s vs = .ok (bs, s1) ∧
        isMinOf s1.best_stat_last (A ++ acceptedVals vs bs) := by
  induction vs with
  | nil =>
    intro s A _ hmin
    exact ⟨[], s, rfl, by simpa [acceptedVals] using hmin⟩
  | cons v vs ih =>
    intro s A hbo hmin
    have hl : [(s.save_best_stat, v)].lookup s.save_best_stat = some v := by
      simp [List.lookup]
    have heval := save_check_eval s [(s.save_best_stat, v)] s.skip_epochs v hbo
      le_rfl hl
    cases hlt : ltBest v s.best_stat_last with
    | true =>
      have hmin2 : isMinOf (some v) (A ++ [v]) := by
        constructor
        · simp
        · intro w hw
          rcases List.mem_append.mp hw with hwA | hwv
          · cases hb : s.best_stat_last with
            | none =>
              rw [hb] at hmin
              simp [isMinOf] at hmin
              simp [hmin] at hwA
            | some m =>
              rw [hb] at hmin hlt
              simp only [ltBest, decide_eq_true_eq] at hlt
              exact le_of_lt (lt_of_lt_of_le hlt (hmin.2 w hwA))
          · simp only [List.mem_singleton] at hwv
            exact le_of_eq hwv.symm
      obtain ⟨bs, s1, hrun, hmin1⟩ :=
        ih { s with best_stat_last := some v } (A ++ [v]) (by simpa using hbo)
          hmin2
      refine ⟨true :: bs, s1, ?_, ?_⟩
      · simp only [run_save_checks, heval, hlt, if_true, hrun]
      · have : A ++ acceptedVals (v :: vs) (true :: bs) =
            (A ++ [v]) ++ acceptedVals vs bs := by
          simp [acceptedVals]
        rw [this]
        exact hmin1
    | false =>
      obtain ⟨bs, s1, hrun, hmin1⟩ := ih s A hbo hmin
      refine ⟨false :: bs, s1, ?_, ?_⟩
      · simp only [run_save_checks, heval, hlt, if_false, hrun,
          Bool.false_eq_true]
      · have : A ++ acceptedVals (v :: vs) (false :: bs) =
            A ++ acceptedVals vs bs := by
          simp [acceptedVals]
        rw [this]
        exact hmin1

/-- Claim C2: past warm-up with the best-only policy and the tracked stat
present, `save_check` returns `true` exactly when the logged value is
strictly below the stored `best_stat_last` (`math.inf` at the start), in
which case it overwrites the stored best; a tie or larger value returns
`false` and leaves it unchanged.  Over any run started at infinity the
stored best is the minimum of all previously accepted values. -/
theorem save_check_best_only_spec (s : SaveState) (logs : Logs) (epoch : Nat)
    (v : ℚ) (sr : SaveState) (vs : List ℚ) (g : Config)
    (hbo : s.save_best_only = true) (hep : s.skip_epochs ≤ epoch)
    (hl : logs.lookup s.save_best_stat = some v)
    (hbor : sr.save_best_only = true) (hinf : sr.best_stat_last = none)
    (hg : g.lookup "best_stat_last" = none) :
    save_check s logs epoch =
      .ok (ltBest v s.best_stat_last,
        if ltBest v s.best_stat_last then { s with best_stat_last := some v }
        else s) ∧
    (∃ bs s1, run_save_checks sr vs = .ok (bs, s1) ∧
      isMinOf s1.best_stat_last (acceptedVals vs bs)) ∧
    (scan_params g).best_stat_last = none := by
  refine ⟨save_check_eval s logs epoch v hbo hep hl, ?_, ?_⟩
  · obtain ⟨bs, s1, hrun, hmin⟩ := run_save_checks_min vs sr [] hbor
      (by rw [hinf]; simp [isMinOf])
    exact ⟨bs, s1, hrun, by simpa using hmin⟩
  · simp [scan_params, param, hg, PyValue.toRat]

/-- Witness for claim C2: a strict improvement at 1 over a fresh state, a
three-epoch run, and the default configuration. -/
theorem save_check_best_only_spec_witness :
    save_check sBestC [("loss", (1 : ℚ))] 0 =
      .ok (ltBest 1 sBestC.best_stat_last,
        if ltBest 1 sBestC.best_stat_last then
          { sBestC with best_stat_last := some 1 }
        else sBestC) ∧
    (∃ bs s1, run_save_checks sBestC [(3 : ℚ), 5, 2] = .ok (bs, s1) ∧
      isMinOf s1.best_stat_last (acceptedVals [(3 : ℚ), 5, 2] bs)) ∧
    (scan_params []).best_stat_last = none :=
  save_check_best_only_spec sBestC [("loss", (1 : ℚ))] 0 1 sBestC
    [(3 : ℚ), 5, 2] [] rfl (Nat.le_refl 0) (by decide) rfl rfl rfl

/-- A successful `restart_json` returns exactly the descriptor stored in
the snapshot directory. -/
theorem restart_json_ok_info (g : Config) (d : Dir) (directory : String)
    (J : Descriptor) (h : restart_json g d directory = .ok J) :
    d.info = some J := by
  obtain ⟨mf, info⟩ := d
  cases info with
  | none =>
    simp only [restart_json] at h
    split at h <;> simp at h
  | some J2 =>
    simp only [restart_json] at h
    split at h
    · cases mf with
      | none => simp at h
      | some bytes => split at h <;> (try split at h) <;> simp_all
    · simp_all

/-- Claim C3: with checksumming not explicitly disabled, a recomputed
checksum of the weights artifact differing from the descriptor's recorded
checksum makes `restart_json` fail with a corruption error, and `restart`
propagates the failure, so the corrupted artifact is never loaded into the
model. -/
theorem restart_checksum_mismatch (g : Config) (d : Dir) (bytes : List Nat)
    (J : Descriptor) (m : Model)
    (hck : disabled g "checksum" = false) (hre : disabled g "restart" = false)
    (hmf : d.model_file = some bytes) (hin : d.info = some J)
    (hne : checksum_file bytes ≠ J.checksum) :
    restart_json g d "save/ckpt-good" =
      .error (.corruptionError "save/ckpt-good") ∧
    restart g (some d) m = .error (.corruptionError "save/ckpt-good") := by
  have h1 : restart_json g d "save/ckpt-good" =
      .error (.corruptionError "save/ckpt-good") := by
    rw [restart_json, hin]
    simp [hck, hmf, hne]
  refine ⟨h1, ?_⟩
  simp [restart, hre, hmf, h1]

/-- Witness for claim C3: an artifact of one byte whose descriptor records
the wrong checksum string. -/
theorem restart_checksum_mismatch_witness :
    restart_json [] ⟨some [0], some badDescC⟩ "save/ckpt-good" =
      .error (.corruptionError "save/ckpt-good") ∧
    restart [] (some ⟨some [0], some badDescC⟩) [] =
      .error (.corruptionError "save/ckpt-good") :=
  restart_checksum_mismatch [] ⟨some [0], some badDescC⟩ [0] badDescC []
    rfl rfl rfl rfl (by decide)

/-- Claim C5: `restart` returns `none` when restart is disabled by the
configuration, returns `none` when no `good` weights artifact exists, and
otherwise (with a validated descriptor) loads the stored weights into the
model in place and returns the full descriptor read from `good`. -/
theorem restart_spec (g1 : Config) (good1 : Option Dir) (m1 : Model)
    (hdis : disabled g1 "restart" = true)
    (g2 : Config) (m2 : Model) (hen2 : disabled g2 "restart" = false)
    (g3 : Config) (d3 : Dir) (m3 : Model)
    (hen3 : disabled g3 "restart" = false) (hmf3 : d3.model_file = none)
    (g4 : Config) (d4 : Dir) (bytes : List Nat) (J : Descriptor) (m4 : Model)
    (hen4 : disabled g4 "restart" = false) (hmf4 : d4.model_file = some bytes)
    (hok : restart_json g4 d4 "save/ckpt-good" = .ok J) :
    restart g1 good1 m1 = .ok (none, m1) ∧
    restart g2 none m2 = .ok (none, m2) ∧
    restart g3 (some d3) m3 = .ok (none, m3) ∧
    restart g4 (some d4) m4 = .ok (some J, bytes) ∧
    d4.info = some J := by
  refine ⟨?_, ?_, ?_, ?_, restart_json_ok_info g4 d4 "save/ckpt-good" J hok⟩
  · simp [restart, hdis]
  · simp [restart, hen2]
  · simp [restart, hen3, hmf3]
  · simp [restart, hen4, hmf4, hok]

/-- Witness for claim C5: restart explicitly disabled, no snapshot, a
directory without weights, and a valid snapshot of one byte. -/
theorem restart_spec_witness :
    restart [("restart", PyValue.vBool false)] (some prevGoodC) [] =
      .ok (none, []) ∧
    restart [] none [] = .ok (none, []) ∧
    restart [] (some ⟨none, none⟩) [] = .ok (none, []) ∧
    restart [] (some ⟨some [1], some goodDescC⟩) [] =
      .ok (some goodDescC, [1]) ∧
    (Dir.mk (some [1]) (some goodDescC)).info = some goodDescC :=
  restart_spec [("restart", PyValue.vBool false)] (some prevGoodC) [] rfl
    [] [] rfl
    [] ⟨none, none⟩ [] rfl rfl
    [] ⟨some [1], some goodDescC⟩ [1] goodDescC [] rfl rfl (by decide)

/-- Claim C6, against the source: with the weights artifact present and the
descriptor absent, strict mode (`require_json` not disabled) raises the
missing-descriptor error as the claim states; but in relaxed mode
(`require_json` explicitly falsy) the source still opens the absent
descriptor file unconditionally, so loading fails with a file error instead
of proceeding without metadata validation. -/
theorem restart_json_missing_descriptor (g : Config) (d : Dir)
    (directory : String) (hinfo : d.info = none)
    (hstrict : disabled g "require_json" = false) :
    restart_json g d directory = .error (.missingDescriptorError directory) ∧
    restart_json [("require_json", PyValue.vBool false)] ⟨some [0], none⟩
      "save/ckpt-good" = .error (.ioError "save/ckpt-good/ckpt-info.json") := by
  constructor
  · rw [restart_json, hinfo]
    simp [hstrict]
  · rfl

/-- Witness for claim C6: strict mode on an empty configuration. -/
theorem restart_json_missing_descriptor_witness :
    restart_json [] ⟨some [0], none⟩ "save/ckpt-good" =
      .error (.missingDescriptorError "save/ckpt-good") ∧
    restart_json [("require_json", PyValue.vBool false)] ⟨some [0], none⟩
      "save/ckpt-good" = .error (.ioError "save/ckpt-good/ckpt-info.json") :=
  restart_json_missing_descriptor [] ⟨some [0], none⟩ "save/ckpt-good" rfl rfl

/-- Claim C10: any present truthy `restart` value, including the documented
tri-state string OFF, leaves `disabled` false, so `restart` does not take
the disabled early-return and still attempts (and here completes) a restart
from an existing `good` snapshot. -/
theorem restart_truthy_off_attempts (g : Config) (v : PyValue)
    (J : Descriptor) (bytes : List Nat) (m : Model)
    (hv : g.lookup "restart" = some v) (ht : v.truthy = true)
    (hcks : J.checksum = checksum_file bytes) :
    disabled g "restart" = false ∧
    PyValue.truthy (.vStr "OFF") = true ∧
    restart [("restart", PyValue.vStr "OFF")] (some ⟨some bytes, some J⟩) m =
      .ok (some J, bytes) := by
  refine ⟨by simp [disabled, hv, ht], rfl, ?_⟩
  have hdis : disabled [("restart", PyValue.vStr "OFF")] "restart" = false := rfl
  have hjson : restart_json [("restart", PyValue.vStr "OFF")]
      ⟨some bytes, some J⟩ "save/ckpt-good" = .ok J := by
    rw [restart_json]
    simp [disabled, List.lookup, hcks]
  simp [restart, hdis, hjson]

/-- Witness for claim C10: the configuration that sets `restart` to OFF and
a valid one-byte snapshot. -/
theorem restart_truthy_off_attempts_witness :
    disabled [("restart", PyValue.vStr "OFF")] "restart" = false ∧
    PyValue.truthy (.vStr "OFF") = true ∧
    restart [("restart", PyValue.vStr "OFF")]
      (some ⟨some [1], some goodDescC⟩) [] = .ok (some goodDescC, [1]) :=
  restart_truthy_off_attempts [("restart", PyValue.vStr "OFF")]
    (.vStr "OFF") goodDescC [1] [] rfl rfl rfl

/-- Claim C1 counterexample: starting from a filesystem whose `good` slot
holds the previous valid snapshot, the rotation state reached immediately
after the `good` to `old` rename and before the `work` to `good` rename
(the fourth state of the trace) has no `good` directory at all, refuting
the claim that at no point between steps is `good` missing. -/
theorem rotation_good_missing_between_renames :
    fsPrevC.good = some prevGoodC ∧
    (rotationTrace sWriterC [1] 3 20 fsPrevC)[3]?.map SaveFS.good =
      some none := by
  exact ⟨rfl, rfl⟩

/-- Claim C1 (amended): during the rotation of `on_epoch_end` a pre-existing
`old` is deleted first, `good` (if present) is renamed to `old`, and `work`
is renamed to `good`; afterwards `good` holds a fully written weights
artifact together with a descriptor whose checksum matches the artifact
(when checksumming is enabled), and `good` is never partially written —
every intermediate state holds either the previous complete snapshot or the
new one — but in the window between the `good` to `old` rename and the
`work` to `good` rename `good` is briefly absent.  A crash immediately
after the work-to-good rename but before old-cleanup leaves a snapshot that
a subsequent restart loads. -/
theorem rotation_crash_safety (s : SaveState) (weights : List Nat)
    (epoch now : Nat) (fs : SaveFS) (g : Config) (m : Model)
    (s0 : SaveState) (logs : Logs)
    (hck : s.checksum_enabled = true)
    (hre : disabled g "restart" = false)
    (hsc : save_check s0 logs epoch = .ok (true, s)) :
    (rotationTrace s weights epoch now fs)[0]?.map SaveFS.good =
      some fs.good ∧
    (rotationTrace s weights epoch now fs)[1]?.map SaveFS.good =
      some fs.good ∧
    (rotationTrace s weights epoch now fs)[2]?.map SaveFS.good =
      some fs.good ∧
    (rotationTrace s weights epoch now fs)[2]?.map SaveFS.old =
      some none ∧
    (fs.good.isSome = true →
      (rotationTrace s weights epoch now fs)[3]?.map SaveFS.good =
        some none ∧
      (rotationTrace s weights epoch now fs)[3]?.map SaveFS.old =
        some fs.good) ∧
    (fs.good = none →
      (rotationTrace s weights epoch now fs)[3]? =
        (rotationTrace s weights epoch now fs)[2]?) ∧
    (rotationTrace s weights epoch now fs)[4]?.map SaveFS.good =
      some (some (write_model s weights epoch now).1) ∧
    (rotationTrace s weights epoch now fs)[5]?.map SaveFS.good =
      some (some (write_model s weights epoch now).1) ∧
    (write_model s weights epoch now).1.model_file = some weights ∧
    (write_model s weights epoch now).1.info =
      some (write_json s (checksum_dispatch s weights) epoch now).1 ∧
    (write_json s (checksum_dispatch s weights) epoch now).1.checksum =
      checksum_file weights ∧
    restart g (some (write_model s weights epoch now).1) m =
      .ok (some (write_json s (checksum_dispatch s weights) epoch now).1,
        weights) ∧
    (∃ fsLast, (rotationTrace s weights epoch now fs)[5]? = some fsLast ∧
      on_epoch_end s0 logs epoch weights now fs =
        .ok ((write_model s weights epoch now).2, fsLast)) := by
  have hcksum : checksum_dispatch s weights = checksum_file weights := by
    simp [checksum_dispatch, hck]
  have hdesc : (write_json s (checksum_dispatch s weights) epoch now).1.checksum =
      checksum_file weights := hcksum
  have hjson : restart_json g
      ⟨some weights, some (write_json s (checksum_dispatch s weights) epoch now).1⟩
      "save/ckpt-good" =
      .ok (write_json s (checksum_dispatch s weights) epoch now).1 := by
    rw [restart_json]
    cases hdg : disabled g "checksum" <;> simp [hdg, hdesc]
  have hrestart : restart g (some (write_model s weights epoch now).1) m =
      .ok (some (write_json s (checksum_dispatch s weights) epoch now).1,
        weights) := by
    simp [restart, hre, write_model, hjson]
  obtain ⟨w, go, ol⟩ := fs
  refine ⟨?_, ?_, ?_, ?_, ?_, ?_, ?_, ?_, rfl, rfl, hdesc, hrestart, ?_⟩
  · cases w <;> simp [rotationTrace]
  · cases w <;> simp [rotationTrace]
  · cases w <;> simp [rotationTrace]
  · cases w <;> simp [rotationTrace]
  · intro hgo
    cases go with
    | none => simp at hgo
    | some gd => cases w <;> simp [rotationTrace]
  · intro hgo
    subst hgo
    cases w <;> simp [rotationTrace]
  · cases w <;> cases go <;> simp [rotationTrace]
  · cases w <;> cases go <;> cases hcl : (write_model s weights epoch now).2.clean <;>
      simp [rotationTrace, hcl]
  · refine ⟨_, rfl, ?_⟩
    simp [on_epoch_end, hsc, rotationTrace]

/-- Witness for claim C1 at a concrete save event: unconditional saving of
the one-byte artifact over a filesystem holding a previous snapshot. -/
theorem rotation_crash_safety_witness :
    (rotationTrace sWriterC [1] 3 20 fsPrevC)[0]?.map SaveFS.good =
      some fsPrevC.good ∧
    (rotationTrace sWriterC [1] 3 20 fsPrevC)[1]?.map SaveFS.good =
      some fsPrevC.good ∧
    (rotationTrace sWriterC [1] 3 20 fsPrevC)[2]?.map SaveFS.good =
      some fsPrevC.good ∧
    (rotationTrace sWriterC [1] 3 20 fsPrevC)[2]?.map SaveFS.old =
      some none ∧
    (fsPrevC.good.isSome = true →
      (rotationTrace sWriterC [1] 3 20 fsPrevC)[3]?.map SaveFS.good =
        some none ∧
      (rotationTrace sWriterC [1] 3 20 fsPrevC)[3]?.map SaveFS.old =
        some fsPrevC.good) ∧
    (fsPrevC.good = none →
      (rotationTrace sWriterC [1] 3 20 fsPrevC)[3]? =
        (rotationTrace sWriterC [1] 3 20 fsPrevC)[2]?) ∧
    (rotationTrace sWriterC [1] 3 20 fsPrevC)[4]?.map SaveFS.good =
      some (some (write_model sWriterC [1] 3 20).1) ∧
    (rotationTrace sWriterC [1] 3 20 fsPrevC)[5]?.map SaveFS.good =
      some (some (write_model sWriterC [1] 3 20).1) ∧
    (write_model sWriterC [1] 3 20).1.model_file = some [1] ∧
    (write_model sWriterC [1] 3 20).1.info =
      some (write_json sWriterC (checksum_dispatch sWriterC [1]) 3 20).1 ∧
    (write_json sWriterC (checksum_dispatch sWriterC [1]) 3 20).1.checksum =
      checksum_file [1] ∧
    restart [] (some (write_model sWriterC [1] 3 20).1) [] =
      .ok (some (write_json sWriterC (checksum_dispatch sWriterC [1]) 3 20).1,
        [1]) ∧
    (∃ fsLast, (rotationTrace sWriterC [1] 3 20 fsPrevC)[5]? = some fsLast ∧
      on_epoch_end sWriterC [("loss", (1 : ℚ))] 3 [1] 20 fsPrevC =
        .ok ((write_model sWriterC [1] 3 20).2, fsLast)) :=
  rotation_crash_safety sWriterC [1] 3 20 fsPrevC [] [] sWriterC
    [("loss", (1 : ℚ))] rfl rfl rfl

end CkptKerasUtils
